import Mathlib

/-!
The file lxd/instance/drivers/load.go

A shallow embedding of the three entry points of `load.go` (`load`, `create`
and `validDevices`) together with the part of the Go machine they need:

* Go maps are reference values.  The heap keeps the `map[string]string`
  objects (device configs) and the `map[string]Device` objects (device sets)
  in two stores; a reference is an index into a store, `nil` is `none`.
* Everything outside this file (the two backends, the device registry and the
  root-disk resolver) is a collaborator: a function that may read and write
  the whole heap and that returns Go's result tuple.
* Every call site of a collaborator records a `Call`, so that "is called",
  "is called once" and "is never called" are statements about the call list.
-/

namespace Lxd

/-! ## Go values -/

/-- Go `error` values that are not nil.  `new` is `errors.New` (used by
collaborators only), `errorf` is `fmt.Errorf`, and `wrap cause format args`
is `errors.Wrapf(cause, format, args...)` of github.com/pkg/errors;
`errors.Wrap(cause, message)` is `wrap cause message []`.  The format string
and its arguments are kept apart, so an error remembers what it was built
from. -/
inductive GoError where
  | new (msg : String)
  | errorf (format : String) (args : List String)
  | wrap (cause : GoError) (format : String) (args : List String)
  deriving DecidableEq, Repr

/-- A reference to a heap object. -/
abbrev Addr := Nat

/-- Contents of a `deviceConfig.Device`, a `map[string]string`. -/
abbrev Device := List (String × String)

/-- Contents of a `deviceConfig.Devices`, a `map[string]Device`: each device
name is bound to a reference to its config map. -/
abbrev DeviceTable := List (String × Addr)

/-- A value of type `deviceConfig.Devices`: `none` is the nil map, `some d`
refers to the map object stored at `d`. -/
abbrev Devices := Option Addr

namespace instancetype

/-- Modelled from the spec: the Go type `instancetype.Type`, an integer tag
(the spec's unknown value is `99`).  `Type` is a reserved word, hence `Tag`. -/
abbrev Tag := Int

/-- Modelled from the spec: the constant `instancetype.Container`. -/
def Container : instancetype.Tag := 0

/-- Modelled from the spec: the constant `instancetype.VM`. -/
def VM : instancetype.Tag := 1

end instancetype

/-- Modelled from the spec: the fields of `db.InstanceArgs` that `load.go`
reads or writes (Name, Type, Devices).  `Type` is a reserved word, hence
`Typ`. -/
structure InstanceArgs where
  Name : String
  Typ : instancetype.Tag
  Devices : Devices
  deriving DecidableEq, Repr

/-! ## The heap -/

/-- The mutable world: the store of device config maps, the store of device
set maps, and `ext`, whatever else the collaborators keep (database, runtime
state, the internals of instances). -/
structure Heap (σ : Type) where
  devs : List Device
  tabs : List DeviceTable
  ext : σ

/-- Read the config map stored at `a`. -/
def Heap.readDev {σ : Type} (h : Heap σ) (a : Addr) : Device :=
  h.devs.getD a []

/-- Read the device set stored at `d`. -/
def Heap.readTab {σ : Type} (h : Heap σ) (d : Addr) : DeviceTable :=
  h.tabs.getD d []

/-- The assignment `m[key] = value` on the contents of a Go map. -/
def Device.assign (key value : String) : Device → Device
  | [] => [(key, value)]
  | (k, v) :: rest =>
    if k = key then (k, value) :: rest else (k, v) :: Device.assign key value rest

/-- The assignment `config[key] = value` through the reference `a`. -/
def Heap.writeDev {σ : Type} (h : Heap σ) (a : Addr) (key value : String) : Heap σ :=
  { h with devs := h.devs.set a (Device.assign key value (h.readDev a)) }

/-- Every reference reachable from the device set `d` points to a stored
object. -/
def Heap.Live {σ : Type} (h : Heap σ) (d : Addr) : Prop :=
  d < h.tabs.length ∧ ∀ e ∈ h.readTab d, e.2 < h.devs.length

/-- The full contents reachable from a device set value. -/
def Heap.snapshot {σ : Type} (h : Heap σ) (devices : Devices) :
    Option (List (String × Device)) :=
  devices.map fun d => (h.readTab d).map fun e => (e.1, h.readDev e.2)

/-- What `devices[name][key]` evaluates to in a snapshot, with `none` for a
missing device or a missing key. -/
def lookupOption (s : Option (List (String × Device))) (name key : String) : Option String :=
  match s with
  | none => none
  | some t =>
    match t.lookup name with
    | none => none
    | some cfg => cfg.lookup key

/-- The set of device names of a snapshot, as a membership test. -/
def hasDevice (s : Option (List (String × Device))) (name : String) : Bool :=
  match s with
  | none => false
  | some t => (t.lookup name).isSome

/-- Deep equality of two device set values (Go's `reflect.DeepEqual`): both
nil or both not, the same device names, and under each name the same keys
with the same values. -/
def DeepEqual (s t : Option (List (String × Device))) : Prop :=
  s.isSome = t.isSome ∧
  (∀ name, hasDevice s name = hasDevice t name) ∧
  ∀ name key, lookupOption s name key = lookupOption t name key

/-! ## Cloning -/

/-- Modelled from the spec: the per-device part of the deep clone
(`Device.Clone` for each entry).  Every config map of the table is copied into
a fresh object appended to the store `devs`. -/
def cloneEntries : DeviceTable → List Device → DeviceTable × List Device
  | [], devs => ([], devs)
  | (name, a) :: rest, devs =>
    let r := cloneEntries rest (devs ++ [devs.getD a []])
    ((name, devs.length) :: r.1, r.2)

/-- Modelled from the spec: the method `Devices.Clone` of `deviceConfig`, the
deep clone of step 2 of the validation gateway; returns the reference to the
new device set. -/
def Devices.Clone {σ : Type} (h : Heap σ) (d : Addr) : Addr × Heap σ :=
  let r := cloneEntries (h.readTab d) h.devs
  (h.tabs.length, { h with devs := r.2, tabs := h.tabs ++ [r.1] })

/-- Modelled from the spec: the method `Devices.CloneNative` of `deviceConfig`,
a deep copy into a `map[string]map[string]string`, which has the same
representation here. -/
def Devices.CloneNative {σ : Type} (h : Heap σ) (d : Addr) : Addr × Heap σ :=
  Devices.Clone h d

/-! ## Collaborators and calls -/

/-- One call made to a collaborator, with the arguments it was given. -/
inductive Call (St Prof Inst : Type) where
  | LXCLoad (s : St) (args : InstanceArgs) (profiles : List Prof)
  | qemuLoad (s : St) (args : InstanceArgs) (profiles : List Prof)
  | LXCCreate (s : St) (args : InstanceArgs)
  | qemuCreate (s : St) (args : InstanceArgs)
  | LXCInstantiate (s : St) (args : InstanceArgs) (expandedDevices : Devices)
  | qemuInstantiate (s : St) (args : InstanceArgs) (expandedDevices : Devices)
  | deviceNew (inst : Option Inst) (s : St) (name : String) (config : Addr)
  | GetRootDiskDevice (devices : Addr)

/-- The call is one of the two backend loaders or creators. -/
def Call.isBackend {St Prof Inst : Type} : Call St Prof Inst → Bool
  | .LXCLoad _ _ _ => true
  | .qemuLoad _ _ _ => true
  | .LXCCreate _ _ => true
  | .qemuCreate _ _ => true
  | _ => false

/-- The call is to the container backend. -/
def Call.isLXC {St Prof Inst : Type} : Call St Prof Inst → Bool
  | .LXCLoad _ _ _ => true
  | .LXCCreate _ _ => true
  | .LXCInstantiate _ _ _ => true
  | _ => false

/-- The call is to the VM backend. -/
def Call.isQemu {St Prof Inst : Type} : Call St Prof Inst → Bool
  | .qemuLoad _ _ _ => true
  | .qemuCreate _ _ => true
  | .qemuInstantiate _ _ _ => true
  | _ => false

/-- The call is to the device registry (`device.New`). -/
def Call.isDeviceNew {St Prof Inst : Type} : Call St Prof Inst → Bool
  | .deviceNew _ _ _ _ => true
  | _ => false

/-- The device name a call to the registry was made for. -/
def Call.deviceName {St Prof Inst : Type} : Call St Prof Inst → Option String
  | .deviceNew _ _ name _ => some name
  | _ => none

/-- The call is to the root-disk resolver (`shared.GetRootDiskDevice`). -/
def Call.isRootDisk {St Prof Inst : Type} : Call St Prof Inst → Bool
  | .GetRootDiskDevice _ => true
  | _ => false

/-- The functions `load.go` calls and does not define.  Each takes the heap
and returns its Go results with the heap it leaves behind.  An
`instance.Instance` is an interface value, `none` when nil.  `deviceNew` is
`device.New(inst, state, name, config, nil, nil)` and `GetRootDiskDevice` is
`shared.GetRootDiskDevice`; of both only the error is returned here, since
`validDevices` discards the other results. -/
structure Collab (σ St Prof Inst : Type) where
  LXCLoad : St → InstanceArgs → List Prof → Heap σ → (Option Inst × Option GoError) × Heap σ
  qemuLoad : St → InstanceArgs → List Prof → Heap σ → (Option Inst × Option GoError) × Heap σ
  LXCCreate : St → InstanceArgs → Heap σ → (Option Inst × Option GoError) × Heap σ
  qemuCreate : St → InstanceArgs → Heap σ → (Option Inst × Option GoError) × Heap σ
  LXCInstantiate : St → InstanceArgs → Devices → Heap σ → Option Inst × Heap σ
  qemuInstantiate : St → InstanceArgs → Devices → Heap σ → Option Inst × Heap σ
  deviceNew : Option Inst → St → String → Addr → Heap σ → Option GoError × Heap σ
  GetRootDiskDevice : Addr → Heap σ → Option GoError × Heap σ

/-- What a function of `load.go` leaves behind: its return value, the heap,
and the calls it made to collaborators, in order. -/
structure Outcome (σ St Prof Inst α : Type) where
  ret : α
  heap : Heap σ
  calls : List (Call St Prof Inst)

/-! ## load.go -/

section Code

variable {σ St Cl Prof Inst : Type}

/-- Lines 42-46 of `load`: `if err != nil { return nil, err }; return inst, nil`. -/
def loadResult (inst : Option Inst) (err : Option GoError) : Option Inst × Option GoError :=
  match err with
  | some e => (none, some e)
  | none => (inst, none)

/-- The function `load` (lines 30-47). -/
def load (c : Collab σ St Prof Inst) (s : St) (args : InstanceArgs) (profiles : List Prof)
    (h : Heap σ) : Outcome σ St Prof Inst (Option Inst × Option GoError) :=
  if args.Typ = instancetype.Container then
    let r := c.LXCLoad s args profiles h
    ⟨loadResult r.1.1 r.1.2, r.2, [Call.LXCLoad s args profiles]⟩
  else if args.Typ = instancetype.VM then
    let r := c.qemuLoad s args profiles h
    ⟨loadResult r.1.1 r.1.2, r.2, [Call.qemuLoad s args profiles]⟩
  else
    ⟨(none, some (GoError.errorf "Invalid instance type for instance %s" [args.Name])), h, []⟩

/-- The function `create` (lines 101-109). -/
def create (c : Collab σ St Prof Inst) (s : St) (args : InstanceArgs)
    (h : Heap σ) : Outcome σ St Prof Inst (Option Inst × Option GoError) :=
  if args.Typ = instancetype.Container then
    let r := c.LXCCreate s args h
    ⟨r.1, r.2, [Call.LXCCreate s args]⟩
  else if args.Typ = instancetype.VM then
    let r := c.qemuCreate s args h
    ⟨r.1, r.2, [Call.qemuCreate s args]⟩
  else
    ⟨(none, some (GoError.errorf "Instance type invalid" [])), h, []⟩

/-- Lines 56-79 of `validDevices` for a device set that is not nil: the
temporary `InstanceArgs` around the clone, the expanded view, and the
temporary instance.  The result is `none` when the type is neither Container
nor VM (line 78); the heap returned is then the one after the clone. -/
def transientInstance (c : Collab σ St Prof Inst) (state : St)
    (instanceType : instancetype.Tag) (instanceName : String) (d : Addr) (expanded : Bool)
    (h : Heap σ) : Option (Outcome σ St Prof Inst (Option Inst)) × Heap σ :=
  let cl := Devices.Clone h d
  let instArgs : InstanceArgs :=
    { Name := instanceName, Typ := instanceType, Devices := some cl.1 }
  let expandedDevices : Devices := if expanded then instArgs.Devices else none
  if instArgs.Typ = instancetype.Container then
    let r := c.LXCInstantiate state instArgs expandedDevices cl.2
    (some ⟨r.1, r.2, [Call.LXCInstantiate state instArgs expandedDevices]⟩, cl.2)
  else if instArgs.Typ = instancetype.VM then
    let r := c.qemuInstantiate state instArgs expandedDevices cl.2
    (some ⟨r.1, r.2, [Call.qemuInstantiate state instArgs expandedDevices]⟩, cl.2)
  else
    (none, cl.2)

/-- Lines 82-88 of `validDevices`: `for name, config := range devices`.  Go
does not fix the order in which a map is ranged over: `order` is the order of
the keys the runtime picks.  A key is produced with the value the live map
`devices` holds for it when it is reached, and not at all if the map no longer
has it. -/
def rangeDevices (c : Collab σ St Prof Inst) (inst : Option Inst) (state : St) (d : Addr) :
    List String → Heap σ → Outcome σ St Prof Inst (Option GoError)
  | [], h => ⟨none, h, []⟩
  | name :: rest, h =>
    match (h.readTab d).lookup name with
    | none => rangeDevices c inst state d rest h
    | some config =>
      let r := c.deviceNew inst state name config h
      match r.1 with
      | some err =>
        ⟨some (GoError.wrap err "Device validation failed %q" [name]), r.2,
          [Call.deviceNew inst state name config]⟩
      | none =>
        let k := rangeDevices c inst state d rest r.2
        ⟨k.ret, k.heap, Call.deviceNew inst state name config :: k.calls⟩

/-- Lines 90-98 of `validDevices`: the root disk check of expanded mode and
the final `return nil`. -/
def rootDiskCheck (c : Collab σ St Prof Inst) (d : Addr) (expanded : Bool) (h : Heap σ) :
    Outcome σ St Prof Inst (Option GoError) :=
  if expanded then
    let native := Devices.CloneNative h d
    let r := c.GetRootDiskDevice native.1 native.2
    match r.1 with
    | some err =>
      ⟨some (GoError.wrap err "Failed detecting root disk device" []), r.2,
        [Call.GetRootDiskDevice native.1]⟩
    | none => ⟨none, r.2, [Call.GetRootDiskDevice native.1]⟩
  else
    ⟨none, h, []⟩

/-- The function `validDevices` (lines 50-99).  `order` is the order in which
the runtime ranges over `devices`. -/
def validDevices (c : Collab σ St Prof Inst) (order : List String) (state : St) (cluster : Cl)
    (instanceType : instancetype.Tag) (instanceName : String) (devices : Devices)
    (expanded : Bool) (h : Heap σ) : Outcome σ St Prof Inst (Option GoError) :=
  match devices with
  | none => ⟨none, h, []⟩
  | some d =>
    match transientInstance c state instanceType instanceName d expanded h with
    | (none, h1) => ⟨some (GoError.errorf "Invalid instance type" []), h1, []⟩
    | (some b, _) =>
      let loop := rangeDevices c b.ret state d order b.heap
      match loop.ret with
      | some err => ⟨some err, loop.heap, b.calls ++ loop.calls⟩
      | none =>
        let k := rootDiskCheck c d expanded loop.heap
        ⟨k.ret, k.heap, b.calls ++ loop.calls ++ k.calls⟩

/-- The temporary instance `validDevices` hands to the registry: the result of
the instantiator on lines 74 and 76. -/
def validationInstance (c : Collab σ St Prof Inst) (state : St)
    (instanceType : instancetype.Tag) (instanceName : String) (d : Addr) (expanded : Bool)
    (h : Heap σ) : Option Inst :=
  match (transientInstance c state instanceType instanceName d expanded h).1 with
  | some b => b.ret
  | none => none

/-- The loop of `validDevices` as run inside it, over the keys `order`: it
starts from the temporary instance and the heap that lines 56-79 leave.  It is
`none` when line 78 returns before the loop. -/
def validationLoop (c : Collab σ St Prof Inst) (order : List String) (state : St)
    (instanceType : instancetype.Tag) (instanceName : String) (d : Addr) (expanded : Bool)
    (h : Heap σ) : Option (Outcome σ St Prof Inst (Option GoError)) :=
  match (transientInstance c state instanceType instanceName d expanded h).1 with
  | some b => some (rangeDevices c b.ret state d order b.heap)
  | none => none

/-- The heap in which the loop of `validDevices` starts: the one the
instantiator on line 74 or 76 leaves (the heap after the clone when line 78
returns before the loop). -/
def validationHeap (c : Collab σ St Prof Inst) (state : St)
    (instanceType : instancetype.Tag) (instanceName : String) (d : Addr) (expanded : Bool)
    (h : Heap σ) : Heap σ :=
  match (transientInstance c state instanceType instanceName d expanded h).1 with
  | some b => b.heap
  | none => (transientInstance c state instanceType instanceName d expanded h).2

/-- Every device of the set `d` passes the registry's validation: in every heap
that satisfies `I`, `device.New(inst, state, name, config, nil, nil)` returns a
nil error for every `name` bound to `config` in the set, and leaves a heap that
satisfies `I` again.  `I` says which heaps the statement is about (for a
registry that looks at the config it is given: those where the configs are as
the caller passed them). -/
def RegistryAccepts (c : Collab σ St Prof Inst) (inst : Option Inst) (state : St) (d : Addr)
    (I : Heap σ → Prop) : Prop :=
  ∀ (h : Heap σ) (name : String) (config : Addr), I h →
    (h.readTab d).lookup name = some config →
    (c.deviceNew inst state name config h).1 = none ∧ I (c.deviceNew inst state name config h).2

/-- The error the resolver returns when called as on line 92 in heap `h`. -/
def resolverAnswer (c : Collab σ St Prof Inst) (d : Addr) (h : Heap σ) : Option GoError :=
  (c.GetRootDiskDevice (Devices.CloneNative h d).1 (Devices.CloneNative h d).2).1

end Code

/-! ## Sample collaborators

Concrete collaborators on which the statements below are evaluated.  Their
world has no hidden part, states and clusters are `Unit`, and an instance is a
number. -/

/-- The sample root disk test: a device of type "disk" mounted on "/". -/
def isRootDisk (cfg : Device) : Bool :=
  cfg.lookup "type" == some "disk" && cfg.lookup "path" == some "/"

/-- A sample root-disk resolver: it fails unless exactly one device of the set
it is given is a root disk. -/
def sampleGetRootDiskDevice (native : Addr) (h : Heap Unit) : Option GoError × Heap Unit :=
  match (h.readTab native).filter fun e => isRootDisk (h.readDev e.2) with
  | [] => (some (GoError.new "No root device could be found."), h)
  | [_] => (none, h)
  | _ => (some (GoError.new "More than one root device found."), h)

/-- Sample collaborators: both backends succeed, the registry accepts every
device and touches nothing. -/
def sampleCollab : Collab Unit Unit Unit Nat where
  LXCLoad := fun _ _ _ h => ((some 1, none), h)
  qemuLoad := fun _ _ _ h => ((some 2, none), h)
  LXCCreate := fun _ _ h => ((some 1, none), h)
  qemuCreate := fun _ _ h => ((some 2, none), h)
  LXCInstantiate := fun _ _ _ h => (some 1, h)
  qemuInstantiate := fun _ _ _ h => (some 2, h)
  deviceNew := fun _ _ _ _ h => (none, h)
  GetRootDiskDevice := sampleGetRootDiskDevice

/-- A registry that looks at the config map it receives: it accepts a device
whose config has a "type" and rejects the others, and writes nothing. -/
def typedCollab : Collab Unit Unit Unit Nat :=
  { sampleCollab with
    deviceNew := fun _ _ _ config h =>
      (if ((h.readDev config).lookup "type").isSome then none
        else some (GoError.new "Missing device type"), h) }

/-- A registry that fills in a default in the config map it receives, as a
network device does for its MAC address, and accepts the device. -/
def fillingCollab : Collab Unit Unit Unit Nat :=
  { sampleCollab with
    deviceNew := fun _ _ _ config h => (none, h.writeDev config "hwaddr" "00:16:3e:00:00:01") }

/-- Backends whose loader and creator fail and hand back an instance together
with the error. -/
def failingCollab : Collab Unit Unit Unit Nat :=
  { sampleCollab with
    LXCLoad := fun _ _ _ h => ((some 1, some (GoError.new "Failed to load storage pool")), h)
    qemuLoad := fun _ _ _ h => ((some 2, some (GoError.new "Failed to load storage pool")), h)
    LXCCreate := fun _ _ h => ((some 1, some (GoError.new "Failed to load storage pool")), h)
    qemuCreate := fun _ _ h => ((some 2, some (GoError.new "Failed to load storage pool")), h) }

/-- The heap without any object. -/
def emptyHeap : Heap Unit := ⟨[], [], ()⟩

/-- A heap with the device set `root: (type: disk, path: /)` at reference 0. -/
def rootHeap : Heap Unit :=
  ⟨[[("type", "disk"), ("path", "/")]], [[("root", 0)]], ()⟩

/-- A heap with the device set `eth0: (type: nic)` at reference 0. -/
def nicHeap : Heap Unit :=
  ⟨[[("type", "nic")]], [[("eth0", 0)]], ()⟩

/-- A heap with a device set at reference 0 that is not nil and has no
device. -/
def noDeviceHeap : Heap Unit := ⟨[], [[]], ()⟩

end Lxd

namespace Lxd

section Theorems

variable {σ St Cl Prof Inst : Type}

/-! ## load and create -/

/-- C2: when `args.Type` is neither Container nor VM, `load` and `create` each
return a nil instance with their invalid-instance-type error, call no
collaborator at all (so neither backend), and leave the heap as it was. -/
theorem load_create_invalid_type (c : Collab σ St Prof Inst) (s : St) (args : InstanceArgs)
    (profiles : List Prof) (h : Heap σ)
    (hc : args.Typ ≠ instancetype.Container) (hv : args.Typ ≠ instancetype.VM) :
    load c s args profiles h =
        ⟨(none, some (GoError.errorf "Invalid instance type for instance %s" [args.Name])),
          h, []⟩ ∧
      create c s args h = ⟨(none, some (GoError.errorf "Instance type invalid" [])), h, []⟩ := by
  simp [load, create, hc, hv]

/-- C2 at the spec's scenario, type 99. -/
theorem load_create_invalid_type_witness :
    (load sampleCollab () ⟨"c1", 99, none⟩ ([] : List Unit) emptyHeap).ret =
        (none, some (GoError.errorf "Invalid instance type for instance %s" ["c1"])) ∧
      (create sampleCollab () ⟨"c1", 99, none⟩ emptyHeap).calls = [] := by
  have key := load_create_invalid_type sampleCollab () ⟨"c1", 99, none⟩ ([] : List Unit)
    emptyHeap (by decide) (by decide)
  exact ⟨by rw [key.1], by rw [key.2]⟩

/-- C8: for type Container `load` makes exactly one call, `LXCLoad` with the
same state, args and profiles, and for type VM exactly one call, `qemuLoad`
likewise; the heap is the one the loader leaves; when the loader returns no
error `load` returns the loader's instance and a nil error, and when it returns
an error `load` returns that very error. -/
theorem load_dispatch (c : Collab σ St Prof Inst) (s : St) (args : InstanceArgs)
    (profiles : List Prof) (h : Heap σ) :
    (args.Typ = instancetype.Container →
      (load c s args profiles h).calls = [Call.LXCLoad s args profiles] ∧
      (load c s args profiles h).heap = (c.LXCLoad s args profiles h).2 ∧
      ((c.LXCLoad s args profiles h).1.2 = none →
        (load c s args profiles h).ret = ((c.LXCLoad s args profiles h).1.1, none)) ∧
      ∀ e, (c.LXCLoad s args profiles h).1.2 = some e →
        (load c s args profiles h).ret = (none, some e)) ∧
    (args.Typ = instancetype.VM →
      (load c s args profiles h).calls = [Call.qemuLoad s args profiles] ∧
      (load c s args profiles h).heap = (c.qemuLoad s args profiles h).2 ∧
      ((c.qemuLoad s args profiles h).1.2 = none →
        (load c s args profiles h).ret = ((c.qemuLoad s args profiles h).1.1, none)) ∧
      ∀ e, (c.qemuLoad s args profiles h).1.2 = some e →
        (load c s args profiles h).ret = (none, some e)) := by
  constructor
  · intro hty
    have hl : load c s args profiles h =
        ⟨loadResult (c.LXCLoad s args profiles h).1.1 (c.LXCLoad s args profiles h).1.2,
          (c.LXCLoad s args profiles h).2, [Call.LXCLoad s args profiles]⟩ := by
      simp [load, hty]
    rw [hl]
    refine ⟨rfl, rfl, ?_, ?_⟩
    · intro hn
      simp [loadResult, hn]
    · intro e he
      simp [loadResult, he]
  · intro hty
    have hne : ¬ (instancetype.VM = instancetype.Container) := by decide
    have hl : load c s args profiles h =
        ⟨loadResult (c.qemuLoad s args profiles h).1.1 (c.qemuLoad s args profiles h).1.2,
          (c.qemuLoad s args profiles h).2, [Call.qemuLoad s args profiles]⟩ := by
      simp [load, hty, hne]
    rw [hl]
    refine ⟨rfl, rfl, ?_, ?_⟩
    · intro hn
      simp [loadResult, hn]
    · intro e he
      simp [loadResult, he]

/-- C8 on sample backends: a container is loaded by `LXCLoad` alone and a
failing VM loader has its error handed on as it is. -/
theorem load_dispatch_witness :
    (load sampleCollab () ⟨"c1", instancetype.Container, none⟩ ([] : List Unit) emptyHeap).calls =
        [Call.LXCLoad () ⟨"c1", instancetype.Container, none⟩ []] ∧
      (load failingCollab () ⟨"v1", instancetype.VM, none⟩ ([] : List Unit) emptyHeap).ret =
        (none, some (GoError.new "Failed to load storage pool")) :=
  ⟨((load_dispatch sampleCollab () ⟨"c1", instancetype.Container, none⟩ ([] : List Unit)
      emptyHeap).1 rfl).1,
    ((load_dispatch failingCollab () ⟨"v1", instancetype.VM, none⟩ ([] : List Unit)
      emptyHeap).2 rfl).2.2.2 _ rfl⟩

/-- Whatever the loaders return, `load` returns no instance with an error. -/
theorem load_error_nil_instance (c : Collab σ St Prof Inst) (s : St) (args : InstanceArgs)
    (profiles : List Prof) (h : Heap σ) (hne : (load c s args profiles h).ret.2 ≠ none) :
    (load c s args profiles h).ret.1 = none := by
  unfold load at hne ⊢
  split_ifs at hne ⊢
  · cases hr : (c.LXCLoad s args profiles h).1.2 <;> simp_all [loadResult]
  · cases hr : (c.qemuLoad s args profiles h).1.2 <;> simp_all [loadResult]
  · rfl

/-- C9: on a container backend whose loader and creator return an instance
together with an error, `load` drops the instance and `create` returns it
along with the error. -/
theorem create_returns_instance_with_error :
    (load failingCollab () ⟨"c1", instancetype.Container, none⟩ ([] : List Unit) emptyHeap).ret =
        (none, some (GoError.new "Failed to load storage pool")) ∧
      (create failingCollab () ⟨"c1", instancetype.Container, none⟩ emptyHeap).ret =
        (some 1, some (GoError.new "Failed to load storage pool")) := by
  constructor <;> rfl

/-! ## validDevices: the two early returns -/

/-- C3, as amended: for a nil device set `validDevices` returns nil, whatever
the type, the name and `expanded`, makes no call (no temporary instance, no
registry, no resolver) and leaves the heap as it was. -/
theorem validDevices_nil_devices (c : Collab σ St Prof Inst) (order : List String) (state : St)
    (cluster : Cl) (instanceType : instancetype.Tag) (instanceName : String) (expanded : Bool)
    (h : Heap σ) :
    validDevices c order state cluster instanceType instanceName none expanded h =
      ⟨none, h, []⟩ := by
  rfl

/-- C3 fails for a device set that is empty and not nil: for a container in
expanded mode the temporary instance is built, the resolver is consulted, and
its error comes back wrapped. -/
theorem empty_devices_not_short_circuited :
    (validDevices sampleCollab [] () () instancetype.Container "c1" (some 0) true
        noDeviceHeap).ret =
        some (GoError.wrap (GoError.new "No root device could be found.")
          "Failed detecting root disk device" []) ∧
      (validDevices sampleCollab [] () () instancetype.Container "c1" (some 0) true
        noDeviceHeap).calls =
        [Call.LXCInstantiate () ⟨"c1", instancetype.Container, some 1⟩ (some 1),
          Call.GetRootDiskDevice 2] := by
  constructor <;> rfl

/-- C4, as amended: for a device set that is not nil and a type that is
neither Container nor VM, `validDevices` returns the error "Invalid instance
type" after the clone and without any call to a collaborator. -/
theorem validDevices_invalid_type (c : Collab σ St Prof Inst) (order : List String) (state : St)
    (cluster : Cl) (instanceType : instancetype.Tag) (instanceName : String) (d : Addr)
    (expanded : Bool) (h : Heap σ)
    (hc : instanceType ≠ instancetype.Container) (hv : instanceType ≠ instancetype.VM) :
    validDevices c order state cluster instanceType instanceName (some d) expanded h =
      ⟨some (GoError.errorf "Invalid instance type" []), (Devices.Clone h d).2, []⟩ := by
  simp [validDevices, transientInstance, hc, hv]

/-- C4, as amended, at type 99 on the device set with one root disk. -/
theorem validDevices_invalid_type_witness :
    (validDevices sampleCollab ["root"] () () 99 "c1" (some 0) true rootHeap).ret =
      some (GoError.errorf "Invalid instance type" []) := by
  rw [validDevices_invalid_type sampleCollab ["root"] () () 99 "c1" 0 true rootHeap
    (by decide) (by decide)]

/-- C4 fails for the nil device set: type 99 is not rejected, the call returns
nil. -/
theorem nil_devices_bypass_type_check :
    (validDevices sampleCollab [] () () 99 "c1" none true emptyHeap).ret = none := by
  rfl

/-! ## The heap under cloning -/

/-- The clone of a table whose references are all stored only appends to the
store, reads back as the table it was made from, and has fresh references. -/
theorem cloneEntries_spec (t : DeviceTable) (devs : List Device)
    (hl : ∀ e ∈ t, e.2 < devs.length) :
    (∃ ext, (cloneEntries t devs).2 = devs ++ ext) ∧
      (cloneEntries t devs).1.map (fun e => (e.1, (cloneEntries t devs).2.getD e.2 [])) =
        t.map (fun e => (e.1, devs.getD e.2 [])) ∧
      ∀ e ∈ (cloneEntries t devs).1, devs.length ≤ e.2 := by
  induction t generalizing devs with
  | nil => exact ⟨⟨[], by simp [cloneEntries]⟩, by simp [cloneEntries], by simp [cloneEntries]⟩
  | cons x rest ih =>
    obtain ⟨name, a⟩ := x
    have ha : a < devs.length := hl (name, a) (List.mem_cons_self _ _)
    have hrest : ∀ e ∈ rest, e.2 < (devs ++ [devs.getD a []]).length := by
      intro e he
      have hlt := hl e (List.mem_cons_of_mem _ he)
      rw [List.length_append, List.length_singleton]
      exact Nat.lt_succ_of_lt hlt
    obtain ⟨⟨ext, hext⟩, hmap, hfresh⟩ := ih (devs ++ [devs.getD a []]) hrest
    refine ⟨⟨devs.getD a [] :: ext, ?_⟩, ?_, ?_⟩
    · simp only [cloneEntries, hext, List.append_assoc, List.singleton_append]
    · simp only [cloneEntries, List.map_cons]
      congr 1
      · rw [hext, List.append_assoc, List.getD_append_right _ _ _ _ (le_refl _)]
        simp
      · rw [hmap]
        apply List.map_congr_left
        intro e he
        rw [List.getD_append _ _ _ _ (hl e (List.mem_cons_of_mem _ he))]
    · intro e he
      simp only [cloneEntries, List.mem_cons] at he
      rcases he with rfl | he
      · exact le_refl _
      · have hlen := hfresh e he
        rw [List.length_append, List.length_singleton] at hlen
        exact Nat.le_of_succ_le hlen

/-- In the heap after `Devices.Clone`, the clone is a new device set with new
config maps, and both the clone and the set it was made from read as the
original did before. -/
theorem clone_spec (h : Heap σ) (d : Addr) (hlive : h.Live d) :
    (Devices.Clone h d).2.snapshot (some (Devices.Clone h d).1) = h.snapshot (some d) ∧
      (Devices.Clone h d).2.snapshot (some d) = h.snapshot (some d) ∧
      h.tabs.length ≤ (Devices.Clone h d).1 ∧
      ∀ e ∈ (Devices.Clone h d).2.readTab (Devices.Clone h d).1, h.devs.length ≤ e.2 := by
  obtain ⟨hd, hrefs⟩ := hlive
  obtain ⟨⟨ext, hext⟩, hmap, hfresh⟩ := cloneEntries_spec (h.readTab d) h.devs hrefs
  have hnew : (Devices.Clone h d).2.readTab (Devices.Clone h d).1 =
      (cloneEntries (h.readTab d) h.devs).1 := by
    simp only [Devices.Clone, Heap.readTab]
    rw [List.getD_append_right _ _ _ _ (le_refl _)]
    simp
  have hold : (Devices.Clone h d).2.readTab d = h.readTab d := by
    simp only [Devices.Clone, Heap.readTab]
    rw [List.getD_append _ _ _ _ hd]
  refine ⟨?_, ?_, le_refl _, ?_⟩
  · simp only [Heap.snapshot, Option.map_some', hnew, Heap.readDev]
    exact congrArg some hmap
  · simp only [Heap.snapshot, Option.map_some', hold, Heap.readDev]
    congr 1
    apply List.map_congr_left
    intro e he
    show (e.1, (Devices.Clone h d).2.devs.getD e.2 []) = (e.1, h.devs.getD e.2 [])
    have : (Devices.Clone h d).2.devs = h.devs ++ ext := hext
    rw [this, List.getD_append _ _ _ _ (hrefs e he)]
  · rw [hnew]
    exact hfresh

/-- Deep equality holds between equal snapshots. -/
theorem DeepEqual.of_eq {s t : Option (List (String × Device))} (hst : s = t) : DeepEqual s t := by
  subst hst
  exact ⟨rfl, fun _ => rfl, fun _ _ => rfl⟩

/-! ## The loop -/

/-- The loop calls nothing but the registry. -/
theorem rangeDevices_calls (c : Collab σ St Prof Inst) (inst : Option Inst) (state : St)
    (d : Addr) (order : List String) (h : Heap σ) :
    ∀ x ∈ (rangeDevices c inst state d order h).calls,
      x.isDeviceNew = true ∧ x.isRootDisk = false ∧ x.isLXC = false ∧ x.isQemu = false := by
  induction order generalizing h with
  | nil => simp [rangeDevices]
  | cons name rest ih =>
    intro x hx
    cases hcfg : (h.readTab d).lookup name with
    | none =>
      simp only [rangeDevices, hcfg] at hx
      exact ih h x hx
    | some config =>
      cases hr : (c.deviceNew inst state name config h).1 with
      | some err =>
        simp only [rangeDevices, hcfg, hr, List.mem_singleton] at hx
        subst hx
        exact ⟨rfl, rfl, rfl, rfl⟩
      | none =>
        simp only [rangeDevices, hcfg, hr, List.mem_cons] at hx
        rcases hx with rfl | hx
        · exact ⟨rfl, rfl, rfl, rfl⟩
        · exact ih _ x hx

/-- The temporary instance is built by one call, which is to an instantiator. -/
theorem transientInstance_calls (c : Collab σ St Prof Inst) (state : St)
    (instanceType : instancetype.Tag) (instanceName : String) (d : Addr) (expanded : Bool)
    (h : Heap σ) (b : Outcome σ St Prof Inst (Option Inst))
    (hb : (transientInstance c state instanceType instanceName d expanded h).1 = some b) :
    ∃ x, b.calls = [x] ∧ x.isDeviceNew = false ∧ x.isRootDisk = false ∧
      x.deviceName = none := by
  by_cases hc : instanceType = instancetype.Container
  · simp only [transientInstance, hc, if_true, Option.some.injEq] at hb
    subst hb
    exact ⟨_, rfl, rfl, rfl, rfl⟩
  · by_cases hv : instanceType = instancetype.VM
    · have hne : ¬ (instancetype.VM = instancetype.Container) := by decide
      simp only [transientInstance, hv, hne, if_true, if_false, Option.some.injEq] at hb
      subst hb
      exact ⟨_, rfl, rfl, rfl, rfl⟩
    · simp [transientInstance, hc, hv] at hb

/-- Once the temporary instance is built, `validDevices` is the loop followed,
if the loop passes, by the root disk check. -/
theorem validDevices_of_instance (c : Collab σ St Prof Inst) (order : List String) (state : St)
    (cluster : Cl) (instanceType : instancetype.Tag) (instanceName : String) (d : Addr)
    (expanded : Bool) (h : Heap σ) (b : Outcome σ St Prof Inst (Option Inst))
    (hb : (transientInstance c state instanceType instanceName d expanded h).1 = some b) :
    validDevices c order state cluster instanceType instanceName (some d) expanded h =
      match (rangeDevices c b.ret state d order b.heap).ret with
      | some err =>
        ⟨some err, (rangeDevices c b.ret state d order b.heap).heap,
          b.calls ++ (rangeDevices c b.ret state d order b.heap).calls⟩
      | none =>
        ⟨(rootDiskCheck c d expanded (rangeDevices c b.ret state d order b.heap).heap).ret,
          (rootDiskCheck c d expanded (rangeDevices c b.ret state d order b.heap).heap).heap,
          b.calls ++ (rangeDevices c b.ret state d order b.heap).calls ++
            (rootDiskCheck c d expanded (rangeDevices c b.ret state d order b.heap).heap).calls⟩ := by
  rcases hti : transientInstance c state instanceType instanceName d expanded h with ⟨ob, h1⟩
  rw [hti] at hb
  simp only at hb
  subst hb
  simp only [validDevices, hti]

/-- The loop inside `validDevices` exists exactly for the types Container and
VM. -/
theorem validationLoop_isSome (c : Collab σ St Prof Inst) (order : List String) (state : St)
    (instanceType : instancetype.Tag) (instanceName : String) (d : Addr) (expanded : Bool)
    (h : Heap σ) :
    (validationLoop c order state instanceType instanceName d expanded h).isSome = true ↔
      (instanceType = instancetype.Container ∨ instanceType = instancetype.VM) := by
  have hne : ¬ (instancetype.VM = instancetype.Container) := by decide
  unfold validationLoop transientInstance
  by_cases hc : instanceType = instancetype.Container
  · simp [hc]
  · by_cases hv : instanceType = instancetype.VM
    · simp [hv, hne]
    · simp [hc, hv]

/-- The loop inside `validDevices`, spelled out from the temporary instance. -/
theorem validationLoop_eq (c : Collab σ St Prof Inst) (order : List String) (state : St)
    (instanceType : instancetype.Tag) (instanceName : String) (d : Addr) (expanded : Bool)
    (h : Heap σ) (l : Outcome σ St Prof Inst (Option GoError))
    (hloop : validationLoop c order state instanceType instanceName d expanded h = some l) :
    ∃ b, (transientInstance c state instanceType instanceName d expanded h).1 = some b ∧
      validationInstance c state instanceType instanceName d expanded h = b.ret ∧
      l = rangeDevices c b.ret state d order b.heap := by
  unfold validationLoop at hloop
  unfold validationInstance
  cases hti : (transientInstance c state instanceType instanceName d expanded h).1 with
  | none => simp [hti] at hloop
  | some b =>
    simp only [hti, Option.some.injEq] at hloop
    exact ⟨b, rfl, rfl, hloop.symm⟩

/-- When the registry accepts every device of the set, the loop passes: it
returns nil, whatever the order, and the heap it leaves satisfies `I`. -/
theorem rangeDevices_pass (c : Collab σ St Prof Inst) (inst : Option Inst) (state : St)
    (d : Addr) (I : Heap σ → Prop) (hacc : RegistryAccepts c inst state d I)
    (order : List String) (h : Heap σ) (hI : I h) :
    (rangeDevices c inst state d order h).ret = none ∧
      I (rangeDevices c inst state d order h).heap := by
  induction order generalizing h with
  | nil => exact ⟨rfl, hI⟩
  | cons name rest ih =>
    cases hcfg : (h.readTab d).lookup name with
    | none =>
      simp only [rangeDevices, hcfg]
      exact ih h hI
    | some config =>
      obtain ⟨hnone, hnext⟩ := hacc h name config hI hcfg
      simp only [rangeDevices, hcfg, hnone]
      exact ih _ hnext

/-- For the types Container and VM the temporary instance is built, and the
loop starts with it in the heap the instantiator leaves. -/
theorem transientInstance_of_type (c : Collab σ St Prof Inst) (state : St)
    (instanceType : instancetype.Tag) (instanceName : String) (d : Addr) (expanded : Bool)
    (h : Heap σ)
    (hty : instanceType = instancetype.Container ∨ instanceType = instancetype.VM) :
    ∃ b, (transientInstance c state instanceType instanceName d expanded h).1 = some b ∧
      validationInstance c state instanceType instanceName d expanded h = b.ret ∧
      validationHeap c state instanceType instanceName d expanded h = b.heap := by
  have hsome := (validationLoop_isSome c [] state instanceType instanceName d expanded h).mpr hty
  obtain ⟨l, hl⟩ := Option.isSome_iff_exists.mp hsome
  obtain ⟨b, hb, hinst, _⟩ :=
    validationLoop_eq c [] state instanceType instanceName d expanded h l hl
  refine ⟨b, hb, hinst, ?_⟩
  simp only [validationHeap, hb]

/-- C6: take a type in (Container, VM), any name, a device set `d` that is not
nil and any order of iteration.  If every device of the set passes the
registry's validation (`RegistryAccepts`, for the temporary instance, on the
heaps `I` that include the one the loop starts in) and the root-disk resolver,
called as on line 92, returns no error on those heaps, then `validDevices` in
expanded mode returns nil. -/
theorem validDevices_expanded_valid (c : Collab σ St Prof Inst) (order : List String)
    (state : St) (cluster : Cl) (instanceType : instancetype.Tag) (instanceName : String)
    (d : Addr) (h : Heap σ) (I : Heap σ → Prop)
    (hty : instanceType = instancetype.Container ∨ instanceType = instancetype.VM)
    (hstart : I (validationHeap c state instanceType instanceName d true h))
    (hpass : RegistryAccepts c (validationInstance c state instanceType instanceName d true h)
      state d I)
    (hroot : ∀ h1, I h1 → resolverAnswer c d h1 = none) :
    (validDevices c order state cluster instanceType instanceName (some d) true h).ret = none := by
  obtain ⟨b, hb, hinst, hheap⟩ :=
    transientInstance_of_type c state instanceType instanceName d true h hty
  rw [hinst] at hpass
  rw [hheap] at hstart
  obtain ⟨hret, hI⟩ := rangeDevices_pass c b.ret state d I hpass order b.heap hstart
  rw [validDevices_of_instance c order state cluster instanceType instanceName d true h b hb]
  rw [hret]
  have hres := hroot _ hI
  unfold resolverAnswer at hres
  simp only [rootDiskCheck, if_true]
  rw [hres]

/-- C6 at the spec's scenario: container "c1" with the one device
`root: (type: disk, path: /)`, a registry that accepts a device when its config
has a "type", and a resolver that wants exactly one root disk.  The heaps
considered are the single one the loop starts in, which this registry leaves
as it is. -/
theorem validDevices_expanded_valid_witness :
    (validDevices typedCollab ["root"] () () instancetype.Container "c1" (some 0)
      true rootHeap).ret = none :=
  validDevices_expanded_valid typedCollab ["root"] () () instancetype.Container "c1" 0 rootHeap
    (fun h1 => h1 = (Devices.Clone rootHeap 0).2) (Or.inl rfl) rfl
    (by
      intro h1 name config hh hcfg
      subst hh
      have hname : name = "root" ∧ config = 0 := by
        by_cases hn : name = "root"
        · subst hn
          exact ⟨rfl, (Option.some.inj hcfg).symm⟩
        · have hb : ("root" == name) = false := by
            simpa [beq_iff_eq] using fun hx : "root" = name => hn hx.symm
          have hb2 : (name == "root") = false := by
            simpa [beq_iff_eq] using hn
          simp [Heap.readTab, Devices.Clone, rootHeap, cloneEntries, List.lookup, hb, hb2]
            at hcfg
      obtain ⟨hn, hc⟩ := hname
      subst hn
      subst hc
      exact ⟨rfl, rfl⟩)
    (by
      intro h1 hh
      subst hh
      rfl)

/-- C5: take a type in (Container, VM), any name, a device set `d` that is not
nil (empty or not) and any order of iteration, and let every device of the set
pass the registry's validation (`RegistryAccepts`, on the heaps `I`, for the
temporary instance of either mode), the heaps `I` including those the loop
starts in.  If the root-disk resolver, called as on line 92, returns the error
`e` on those heaps, then `validDevices` in expanded mode returns `e` wrapped as
"Failed detecting root disk device", which is not a "Device validation failed"
error; and `validDevices` in non-expanded mode returns nil and never calls the
resolver. -/
theorem validDevices_root_disk_missing (c : Collab σ St Prof Inst) (order : List String)
    (state : St) (cluster : Cl) (instanceType : instancetype.Tag) (instanceName : String)
    (d : Addr) (h : Heap σ) (I : Heap σ → Prop) (e : GoError)
    (hty : instanceType = instancetype.Container ∨ instanceType = instancetype.VM)
    (hstart : I (validationHeap c state instanceType instanceName d true h))
    (hpass : RegistryAccepts c (validationInstance c state instanceType instanceName d true h)
      state d I)
    (hroot : ∀ h1, I h1 → resolverAnswer c d h1 = some e)
    (hstart0 : I (validationHeap c state instanceType instanceName d false h))
    (hpass0 : RegistryAccepts c (validationInstance c state instanceType instanceName d false h)
      state d I) :
    ((validDevices c order state cluster instanceType instanceName (some d) true h).ret =
        some (GoError.wrap e "Failed detecting root disk device" []) ∧
      ∀ cause dev,
        (validDevices c order state cluster instanceType instanceName (some d) true h).ret ≠
          some (GoError.wrap cause "Device validation failed %q" [dev])) ∧
    ((validDevices c order state cluster instanceType instanceName (some d) false h).ret = none ∧
      ∀ x ∈ (validDevices c order state cluster instanceType instanceName (some d) false h).calls,
        x.isRootDisk = false) := by
  have hret : (validDevices c order state cluster instanceType instanceName (some d) true h).ret =
      some (GoError.wrap e "Failed detecting root disk device" []) := by
    obtain ⟨b, hb, hinst, hheap⟩ :=
      transientInstance_of_type c state instanceType instanceName d true h hty
    rw [hinst] at hpass
    rw [hheap] at hstart
    obtain ⟨hnone, hI⟩ := rangeDevices_pass c b.ret state d I hpass order b.heap hstart
    rw [validDevices_of_instance c order state cluster instanceType instanceName d true h b hb]
    rw [hnone]
    have hres := hroot _ hI
    unfold resolverAnswer at hres
    simp only [rootDiskCheck, if_true]
    rw [hres]
  refine ⟨⟨hret, ?_⟩, ?_⟩
  · intro cause dev
    rw [hret]
    intro hcontra
    simp only [Option.some.injEq, GoError.wrap.injEq] at hcontra
    exact absurd hcontra.2.1 (by decide)
  · obtain ⟨b, hb, hinst, hheap⟩ :=
      transientInstance_of_type c state instanceType instanceName d false h hty
    rw [hinst] at hpass0
    rw [hheap] at hstart0
    obtain ⟨hnone, _⟩ := rangeDevices_pass c b.ret state d I hpass0 order b.heap hstart0
    obtain ⟨x0, hx0, _, hx0root, _⟩ :=
      transientInstance_calls c state instanceType instanceName d false h b hb
    rw [validDevices_of_instance c order state cluster instanceType instanceName d false h b hb]
    rw [hnone]
    simp only [rootDiskCheck, Bool.false_eq_true, if_false, List.append_nil, true_and]
    intro x hx
    rw [hx0] at hx
    simp only [List.singleton_append, List.mem_cons] at hx
    rcases hx with rfl | hx
    · exact hx0root
    · exact (rangeDevices_calls c b.ret state d order b.heap x hx).2.1

/-- C5 on the device set `eth0: (type: nic)`, which has no root disk, with a
registry that accepts a device when its config has a "type".  The heaps
considered are the single one the loop starts in (the same in both modes),
which this registry leaves as it is. -/
theorem validDevices_root_disk_missing_witness :
    (validDevices typedCollab ["eth0"] () () instancetype.Container "c1" (some 0)
        true nicHeap).ret =
        some (GoError.wrap (GoError.new "No root device could be found.")
          "Failed detecting root disk device" []) ∧
      (validDevices typedCollab ["eth0"] () () instancetype.Container "c1" (some 0)
        false nicHeap).ret = none :=
  have hacc : RegistryAccepts typedCollab (some 1) () 0
      (fun h1 => h1 = (Devices.Clone nicHeap 0).2) := by
    intro h1 name config hh hcfg
    subst hh
    have hname : name = "eth0" ∧ config = 0 := by
      by_cases hn : name = "eth0"
      · subst hn
        exact ⟨rfl, (Option.some.inj hcfg).symm⟩
      · have hb : ("eth0" == name) = false := by
          simpa [beq_iff_eq] using fun hx : "eth0" = name => hn hx.symm
        have hb2 : (name == "eth0") = false := by
          simpa [beq_iff_eq] using hn
        simp [Heap.readTab, Devices.Clone, nicHeap, cloneEntries, List.lookup, hb, hb2]
          at hcfg
    obtain ⟨hn, hc⟩ := hname
    subst hn
    subst hc
    exact ⟨rfl, rfl⟩
  have key := validDevices_root_disk_missing typedCollab ["eth0"] () ()
    instancetype.Container "c1" 0 nicHeap (fun h1 => h1 = (Devices.Clone nicHeap 0).2)
    (GoError.new "No root device could be found.") (Or.inl rfl) rfl hacc
    (by
      intro h1 hh
      subst hh
      rfl)
    rfl hacc
  ⟨key.1.1, key.2.1⟩

/-- C10: for a device set that is not nil and whose references are all
stored, `validDevices` first calls `LXCInstantiate` for type Container, and
`qemuInstantiate` for type VM, with args made of the given name, the given type
and the clone, and with the same clone as expanded devices when `expanded` is
true, nil when it is false; no later call is to a backend; the temporary
instance is what that instantiator returns in the heap after the clone.  In
that heap the clone is deep-equal to the input set, and it is another device
set with config maps of its own. -/
theorem validDevices_instantiates (c : Collab σ St Prof Inst) (order : List String)
    (state : St) (cluster : Cl) (instanceName : String) (d : Addr) (expanded : Bool)
    (h : Heap σ) (hlive : h.Live d) :
    ((∃ rest, (validDevices c order state cluster instancetype.Container instanceName (some d)
          expanded h).calls =
          Call.LXCInstantiate state
            ⟨instanceName, instancetype.Container, some (Devices.Clone h d).1⟩
            (if expanded then some (Devices.Clone h d).1 else none) :: rest ∧
        ∀ x ∈ rest, x.isLXC = false ∧ x.isQemu = false) ∧
      validationInstance c state instancetype.Container instanceName d expanded h =
        (c.LXCInstantiate state
          ⟨instanceName, instancetype.Container, some (Devices.Clone h d).1⟩
          (if expanded then some (Devices.Clone h d).1 else none) (Devices.Clone h d).2).1) ∧
    ((∃ rest, (validDevices c order state cluster instancetype.VM instanceName (some d)
          expanded h).calls =
          Call.qemuInstantiate state
            ⟨instanceName, instancetype.VM, some (Devices.Clone h d).1⟩
            (if expanded then some (Devices.Clone h d).1 else none) :: rest ∧
        ∀ x ∈ rest, x.isLXC = false ∧ x.isQemu = false) ∧
      validationInstance c state instancetype.VM instanceName d expanded h =
        (c.qemuInstantiate state
          ⟨instanceName, instancetype.VM, some (Devices.Clone h d).1⟩
          (if expanded then some (Devices.Clone h d).1 else none) (Devices.Clone h d).2).1) ∧
    DeepEqual ((Devices.Clone h d).2.snapshot (some (Devices.Clone h d).1))
      ((Devices.Clone h d).2.snapshot (some d)) ∧
    (Devices.Clone h d).1 ≠ d ∧
    ∀ e ∈ (Devices.Clone h d).2.readTab (Devices.Clone h d).1,
      ∀ e0 ∈ (Devices.Clone h d).2.readTab d, e.2 ≠ e0.2 := by
  have hne : ¬ (instancetype.VM = instancetype.Container) := by decide
  have hrest : ∀ (b : Outcome σ St Prof Inst (Option Inst)) (x0 : Call St Prof Inst)
      (ty : instancetype.Tag),
      (transientInstance c state ty instanceName d expanded h).1 = some b → b.calls = [x0] →
      ∃ rest, (validDevices c order state cluster ty instanceName (some d) expanded h).calls =
          x0 :: rest ∧ ∀ x ∈ rest, x.isLXC = false ∧ x.isQemu = false := by
    intro b x0 ty hb hx0
    rw [validDevices_of_instance c order state cluster ty instanceName d expanded h b hb]
    cases hr : (rangeDevices c b.ret state d order b.heap).ret with
    | some err =>
      refine ⟨(rangeDevices c b.ret state d order b.heap).calls, by simp [hx0], ?_⟩
      intro x hx
      exact (rangeDevices_calls c b.ret state d order b.heap x hx).2.2
    | none =>
      refine ⟨(rangeDevices c b.ret state d order b.heap).calls ++
        (rootDiskCheck c d expanded (rangeDevices c b.ret state d order b.heap).heap).calls,
        by simp [hx0], ?_⟩
      intro x hx
      rcases List.mem_append.mp hx with hx | hx
      · exact (rangeDevices_calls c b.ret state d order b.heap x hx).2.2
      · unfold rootDiskCheck at hx
        split_ifs at hx
        · cases hg : (c.GetRootDiskDevice
              (Devices.CloneNative (rangeDevices c b.ret state d order b.heap).heap d).1
              (Devices.CloneNative (rangeDevices c b.ret state d order b.heap).heap d).2).1 <;>
            simp only [hg, List.mem_singleton] at hx <;> subst hx <;> exact ⟨rfl, rfl⟩
        · simp at hx
  obtain ⟨hclone, hsame, hfreshTab, hfreshDev⟩ := clone_spec h d hlive
  refine ⟨⟨?_, ?_⟩, ⟨?_, ?_⟩, ?_, ?_, ?_⟩
  · exact hrest _ _ instancetype.Container (by simp [transientInstance]; rfl) rfl
  · simp [validationInstance, transientInstance]
  · exact hrest _ _ instancetype.VM (by simp [transientInstance, hne]; rfl) rfl
  · simp [validationInstance, transientInstance, hne]
  · exact DeepEqual.of_eq (hclone.trans hsame.symm)
  · intro heq
    have hd := hlive.1
    rw [heq] at hfreshTab
    exact absurd hd (Nat.not_lt.mpr hfreshTab)
  · intro e he e0 he0 heq
    have hold : (Devices.Clone h d).2.readTab d = h.readTab d := by
      simp only [Devices.Clone, Heap.readTab]
      rw [List.getD_append _ _ _ _ hlive.1]
    rw [hold] at he0
    have h1 := hfreshDev e he
    have h2 := hlive.2 e0 he0
    rw [heq] at h1
    exact absurd h2 (Nat.not_lt.mpr h1)

/-- C10 on the device set `root: (type: disk, path: /)` stored at reference
0: the clone is the device set at reference 1, and in expanded mode it is
passed both in the args and as the expanded devices. -/
theorem validDevices_instantiates_witness :
    rootHeap.Live 0 ∧
      (validDevices sampleCollab ["root"] () () instancetype.Container
        "c1" (some 0) true rootHeap).calls.head? =
        some (Call.LXCInstantiate () ⟨"c1", instancetype.Container, some 1⟩ (some 1)) ∧
      DeepEqual ((Devices.Clone rootHeap 0).2.snapshot (some 1))
        ((Devices.Clone rootHeap 0).2.snapshot (some 0)) :=
  have hlive : rootHeap.Live 0 := by
    simp [Heap.Live, Heap.readTab, rootHeap]
  have key := validDevices_instantiates sampleCollab ["root"] () () "c1" 0 true
    rootHeap hlive
  ⟨hlive, by
    obtain ⟨rest, hcalls, _⟩ := key.1.1
    rw [hcalls]
    rfl, key.2.2.1⟩

/-- C1: with a registry that writes a default into the config map it is given,
validating the device set `eth0: (type: nic)` succeeds and leaves the caller's
set with the key "hwaddr" added under "eth0", so not deep-equal to what it was,
while the clone made on line 61 (at reference 1) stays as the set was. -/
theorem validDevices_mutates_original :
    nicHeap.snapshot (some 0) = some [("eth0", [("type", "nic")])] ∧
      (validDevices fillingCollab ["eth0"] () () instancetype.Container "c1"
        (some 0) false nicHeap).ret = none ∧
      (validDevices fillingCollab ["eth0"] () () instancetype.Container "c1"
        (some 0) false nicHeap).heap.snapshot (some 0) =
        some [("eth0", [("type", "nic"), ("hwaddr", "00:16:3e:00:00:01")])] ∧
      (validDevices fillingCollab ["eth0"] () () instancetype.Container "c1"
        (some 0) false nicHeap).heap.snapshot (some 1) =
        some [("eth0", [("type", "nic")])] ∧
      ¬ DeepEqual
        ((validDevices fillingCollab ["eth0"] () () instancetype.Container "c1"
          (some 0) false nicHeap).heap.snapshot (some 0))
        (nicHeap.snapshot (some 0)) := by
  refine ⟨rfl, rfl, rfl, rfl, ?_⟩
  intro hde
  have hkey := hde.2.2 "eth0" "hwaddr"
  have hafter : lookupOption
      ((validDevices fillingCollab ["eth0"] () () instancetype.Container "c1"
        (some 0) false nicHeap).heap.snapshot (some 0)) "eth0" "hwaddr" =
      some "00:16:3e:00:00:01" := by rfl
  have hbefore : lookupOption (nicHeap.snapshot (some 0)) "eth0" "hwaddr" = none := by rfl
  rw [hafter, hbefore] at hkey
  exact Option.noConfusion hkey

end Theorems

end Lxd
